import Mathlib

set_option maxHeartbeats 1000000
set_option maxRecDepth 4000

/-!
Verification development for the retirement-finance calculation engine
(src/lib/calculations.ts and src/lib/withdrawalStrategies.ts).

Modelling conventions for the shallow embedding:
- JavaScript numbers are modelled as exact rationals; Math.round(x) is
  floor(x + 1/2), which is the JS semantics for finite values.
- Year counts are modelled as naturals: every use in the source feeds the
  count into an integer loop bound or an integer exponent.
- The Infinity initial value of minWithdrawal and the NaN produced by the
  division totalWithdrawn / years at years = 0 are modelled by the JsNum
  type, with finite values embedded as rationals.
- Thrown validation errors are modelled with Except; the { isValid, error }
  record of validateAssetAllocation is modelled by an Option carrying the
  evidence of the failed check (the message formatting, including
  toFixed(1), carries no information used by any claim and is elided).
-/

/-- JS Math.round on a finite value: round half toward positive infinity. -/
def jsRound (x : ℚ) : ℚ := ((⌊x + 1/2⌋ : ℤ) : ℚ)

/-- A JS number that may be Infinity or NaN (finite values are exact rationals). -/
inductive JsNum where
  | num (q : ℚ)
  | posInf
  | negInf
  | nan
deriving DecidableEq, Repr

/-- JS Math.min of an accumulator (possibly Infinity/NaN) and a finite value. -/
def jsMin (a : JsNum) (q : ℚ) : JsNum :=
  match a with
  | JsNum.num p => JsNum.num (min p q)
  | JsNum.posInf => JsNum.num q
  | JsNum.negInf => JsNum.negInf
  | JsNum.nan => JsNum.nan

/-- JS Math.round (total / years) where the divisor is the loop count: 0/0 is
NaN, x/0 for x nonzero is a signed infinity, and Math.round leaves the
special values unchanged. -/
def jsDivRound (total : ℚ) (years : ℕ) : JsNum :=
  if years = 0 then
    if total = 0 then JsNum.nan
    else if 0 < total then JsNum.posInf
    else JsNum.negInf
  else JsNum.num (jsRound (total / (years : ℚ)))

/-- Result record of calculateCompoundGrowth. -/
structure CompoundGrowthResult where
  futureValue : ℚ
  totalContributions : ℚ
  totalGrowth : ℚ
deriving DecidableEq, Repr

/-- calculateCompoundGrowth from src/lib/calculations.ts.  The source guards
years <= 0; with years : ℕ that is the years = 0 branch. -/
def calculateCompoundGrowth (principal monthlyContribution annualRate : ℚ)
    (years : ℕ) : CompoundGrowthResult :=
  if years = 0 then
    { futureValue := jsRound principal
      totalContributions := jsRound principal
      totalGrowth := 0 }
  else
    let monthlyRate := annualRate / 12
    let months := years * 12
    let principalFV := principal * (1 + monthlyRate) ^ months
    let contributionsFV :=
      if 0 < monthlyRate then
        monthlyContribution * (((1 + monthlyRate) ^ months - 1) / monthlyRate)
      else
        monthlyContribution * (months : ℚ)
    let futureValue := principalFV + contributionsFV
    let totalContributions := principal + monthlyContribution * (months : ℚ)
    let totalGrowth := futureValue - totalContributions
    { futureValue := jsRound futureValue
      totalContributions := jsRound totalContributions
      totalGrowth := jsRound totalGrowth }

/-- One entry of the SWR guidance table (src/types/index.ts). -/
structure SWRGuidance where
  retirementYears : ℚ
  standardRate : ℚ
  conservativeRate : ℚ
  description : String
deriving DecidableEq, Repr

instance : Inhabited SWRGuidance := ⟨⟨0, 0, 0, ""⟩⟩

/-- The 20-year entry of SWR_GUIDANCE_TABLE. -/
def swr20 : SWRGuidance :=
  { retirementYears := 20, standardRate := 0.050, conservativeRate := 0.045
    description := "Short retirement (~20 years)" }

/-- The 25-year entry of SWR_GUIDANCE_TABLE. -/
def swr25 : SWRGuidance :=
  { retirementYears := 25, standardRate := 0.045, conservativeRate := 0.040
    description := "Moderate retirement (~25 years)" }

/-- The 30-year entry of SWR_GUIDANCE_TABLE. -/
def swr30 : SWRGuidance :=
  { retirementYears := 30, standardRate := 0.040, conservativeRate := 0.035
    description := "Standard retirement (~30 years)" }

/-- The 35-year entry of SWR_GUIDANCE_TABLE. -/
def swr35 : SWRGuidance :=
  { retirementYears := 35, standardRate := 0.035, conservativeRate := 0.0325
    description := "Long retirement (~35 years)" }

/-- The 40-year entry of SWR_GUIDANCE_TABLE. -/
def swr40 : SWRGuidance :=
  { retirementYears := 40, standardRate := 0.0325, conservativeRate := 0.030
    description := "Very long retirement (40+ years)" }

/-- SWR_GUIDANCE_TABLE from src/types/index.ts (already in ascending order). -/
def SWR_GUIDANCE_TABLE : List SWRGuidance := [swr20, swr25, swr30, swr35, swr40]

/-- suggestWithdrawalRate from src/lib/calculations.ts: sort a copy of the
table ascending by retirementYears (the source uses the stable Array sort
with a numeric comparator, modelled by a stable insertion sort on the same
key), return the first entry whose threshold is at or above the input, and
fall back to the last (most conservative) entry. -/
def suggestWithdrawalRate (retirementYears : ℚ) : SWRGuidance :=
  let sorted := List.insertionSort
    (fun a b => a.retirementYears ≤ b.retirementYears) SWR_GUIDANCE_TABLE
  match sorted.find? (fun g => decide (retirementYears ≤ g.retirementYears)) with
  | some g => g
  | none => sorted.getLast!

/-- calculateRetirementTargetWithSWR: throws on withdrawalRate <= 0 or > 1,
otherwise rounds annual expenses divided by the rate. -/
def calculateRetirementTargetWithSWR (monthlyExpenses withdrawalRate : ℚ) :
    Except String ℚ :=
  if withdrawalRate ≤ 0 ∨ 1 < withdrawalRate then
    Except.error "Withdrawal rate must be between 0 and 1 (e.g., 0.04 for 4%)"
  else
    Except.ok (jsRound (monthlyExpenses * 12 / withdrawalRate))

/-- projectRetirementAge: scan ages currentAge, currentAge+1, ... while the
age is at most maxAge (k iterations for k = floor(maxAge - currentAge) + 1
when currentAge <= maxAge, none otherwise), returning the first age whose
projected futureValue reaches the target, and null (none) otherwise. -/
def projectRetirementAge (currentAge currentSavings monthlyContribution
    targetAmount annualRate maxAge : ℚ) : Option ℚ :=
  if currentAge ≤ maxAge then
    ((List.range (Int.toNat ⌊maxAge - currentAge⌋ + 1)).find?
      (fun k => decide (targetAmount ≤
        (calculateCompoundGrowth currentSavings monthlyContribution annualRate
          k).futureValue))).map (fun (k : ℕ) => currentAge + (k : ℚ))
  else
    none

/-- Income flow type enum from src/types/index.ts. -/
inductive IncomeFlowType where
  | social_security
  | pension
  | annuity
  | part_time_work
  | other
deriving DecidableEq, Repr

/-- IncomeFlow record from src/types/index.ts. -/
structure IncomeFlow where
  id : String
  name : String
  flowType : IncomeFlowType
  monthlyAmount : ℚ
  startAge : ℚ
  endAge : Option ℚ
  inflationAdjusted : Bool
deriving DecidableEq, Repr

/-- effectiveStartAge in calculateIncomeFlowLifetimeValue. -/
def effectiveStartAge (flow : IncomeFlow) (retirementAge : ℚ) : ℚ :=
  max flow.startAge retirementAge

/-- effectiveEndAge in calculateIncomeFlowLifetimeValue (endAge ?? lifeExpectancy). -/
def effectiveEndAge (flow : IncomeFlow) (lifeExpectancy : ℚ) : ℚ :=
  flow.endAge.getD lifeExpectancy

/-- The loop of the non-inflation-adjusted branch: sum over year offsets
0 <= y < n of annualAmount / (1 + inflationRate)^y. -/
def nonAdjustedTotalValue (annualAmount inflationRate : ℚ) (n : ℕ) : ℚ :=
  ∑ y ∈ Finset.range n, annualAmount / (1 + inflationRate) ^ y

/-- calculateIncomeFlowLifetimeValue from src/lib/calculations.ts.  The
source loop (for year = 0; year < years; year++) with a rational bound runs
ceil(years) times. -/
def calculateIncomeFlowLifetimeValue (flow : IncomeFlow)
    (retirementAge lifeExpectancy inflationRate : ℚ) : ℚ :=
  let effStart := effectiveStartAge flow retirementAge
  let effEnd := effectiveEndAge flow lifeExpectancy
  if effEnd ≤ effStart then 0
  else
    let years := effEnd - effStart
    let annualAmount := flow.monthlyAmount * 12
    if flow.inflationAdjusted then
      jsRound (annualAmount * years)
    else
      jsRound (nonAdjustedTotalValue annualAmount inflationRate
        (Int.toNat ⌈years⌉))

/-- AssetAllocation record: four percentages. -/
structure AssetAllocation where
  usStocks : ℚ
  internationalStocks : ℚ
  bonds : ℚ
  cash : ℚ
deriving DecidableEq, Repr

/-- Evidence of a failed allocation validation check.  The source carries a
formatted message string; the claims depend only on which check failed. -/
inductive AllocationError where
  | sumNot100 (total : ℚ)
  | negativeComponent
deriving DecidableEq, Repr

/-- validateAssetAllocation: invalid when the sum strays from 100 by more
than 0.01, then invalid when any component is negative; none means the
source record with isValid = true. -/
def validateAssetAllocation (a : AssetAllocation) : Option AllocationError :=
  let total := a.usStocks + a.internationalStocks + a.bonds + a.cash
  if 1/100 < |total - 100| then some (AllocationError.sumNot100 total)
  else if a.usStocks < 0 ∨ a.internationalStocks < 0 ∨ a.bonds < 0 ∨ a.cash < 0 then
    some AllocationError.negativeComponent
  else none

/-- Fixed per-class historical returns. -/
structure AssetClassReturns where
  usStocks : ℚ
  internationalStocks : ℚ
  bonds : ℚ
  cash : ℚ

/-- ASSET_CLASS_RETURNS from src/types/index.ts. -/
def ASSET_CLASS_RETURNS : AssetClassReturns :=
  { usStocks := 0.10, internationalStocks := 0.08, bonds := 0.04, cash := 0.02 }

/-- calculateExpectedReturn: revalidates and throws on invalid input,
otherwise the percentage-weighted sum of the fixed class returns. -/
def calculateExpectedReturn (a : AssetAllocation) : Except AllocationError ℚ :=
  match validateAssetAllocation a with
  | some e => Except.error e
  | none => Except.ok
      ((a.usStocks / 100) * ASSET_CLASS_RETURNS.usStocks +
       (a.internationalStocks / 100) * ASSET_CLASS_RETURNS.internationalStocks +
       (a.bonds / 100) * ASSET_CLASS_RETURNS.bonds +
       (a.cash / 100) * ASSET_CLASS_RETURNS.cash)

/-- One per-year record of a withdrawal simulation. -/
structure YearlyWithdrawal where
  year : ℕ
  startingBalance : ℚ
  withdrawal : ℚ
  endingBalance : ℚ
  withdrawalRate : ℚ
deriving DecidableEq, Repr

/-- Aggregate result of a withdrawal simulation. -/
structure StrategySimulationResult where
  strategyType : String
  initialPortfolio : ℚ
  years : ℕ
  annualReturn : ℚ
  yearlyResults : List YearlyWithdrawal
  totalWithdrawn : ℚ
  finalBalance : ℚ
  averageWithdrawal : JsNum
  minWithdrawal : JsNum
  maxWithdrawal : ℚ
  ranOutOfMoney : Bool
  depletionYear : Option ℕ
deriving DecidableEq, Repr

/-- GuardrailsConfig from src/types/index.ts. -/
structure GuardrailsConfig where
  initialRate : ℚ
  floorGuardrail : ℚ
  ceilingGuardrail : ℚ
  adjustmentPercent : ℚ
deriving DecidableEq, Repr

/-- DEFAULT_GUARDRAILS_CONFIG from src/types/index.ts. -/
def DEFAULT_GUARDRAILS_CONFIG : GuardrailsConfig :=
  { initialRate := 0.05, floorGuardrail := 0.06, ceilingGuardrail := 0.04
    adjustmentPercent := 0.10 }

/-- Loop state of simulateConstantPercentage. -/
structure CPState where
  balance : ℚ
  totalWithdrawn : ℚ
  minW : JsNum
  maxW : ℚ
  results : List YearlyWithdrawal
deriving DecidableEq, Repr

/-- Initial state of the constant-percentage loop. -/
def cpInit (initialPortfolio : ℚ) : CPState :=
  { balance := initialPortfolio, totalWithdrawn := 0, minW := JsNum.posInf
    maxW := 0, results := [] }

/-- One iteration of the constant-percentage loop (year is the 1-based loop
variable): withdraw the rounded fixed fraction, then grow and round. -/
def cpStep (withdrawalRate annualReturn : ℚ) (year : ℕ) (s : CPState) : CPState :=
  let startingBalance := s.balance
  let w := jsRound (s.balance * withdrawalRate)
  let bal := jsRound ((s.balance - w) * (1 + annualReturn))
  { balance := bal
    totalWithdrawn := s.totalWithdrawn + w
    minW := jsMin s.minW w
    maxW := max s.maxW w
    results := s.results ++
      [{ year := year, startingBalance := startingBalance, withdrawal := w
         endingBalance := bal, withdrawalRate := withdrawalRate }] }

/-- State after the first k iterations of the constant-percentage loop. -/
def cpStateAt (initialPortfolio withdrawalRate annualReturn : ℚ) : ℕ → CPState
  | 0 => cpInit initialPortfolio
  | k + 1 => cpStep withdrawalRate annualReturn (k + 1)
      (cpStateAt initialPortfolio withdrawalRate annualReturn k)

/-- simulateConstantPercentage from src/lib/withdrawalStrategies.ts. -/
def simulateConstantPercentage (initialPortfolio withdrawalRate : ℚ)
    (years : ℕ) (annualReturn : ℚ) : StrategySimulationResult :=
  let final := cpStateAt initialPortfolio withdrawalRate annualReturn years
  { strategyType := "constant_percentage"
    initialPortfolio := initialPortfolio
    years := years
    annualReturn := annualReturn
    yearlyResults := final.results
    totalWithdrawn := final.totalWithdrawn
    finalBalance := final.balance
    averageWithdrawal := jsDivRound final.totalWithdrawn years
    minWithdrawal := final.minW
    maxWithdrawal := final.maxW
    ranOutOfMoney := false
    depletionYear := none }

/-- Loop state of simulateConstantDollar; withdrawal is the amount scheduled
for the coming year. -/
structure CDState where
  balance : ℚ
  withdrawal : ℚ
  totalWithdrawn : ℚ
  minW : JsNum
  maxW : ℚ
  ranOut : Bool
  depletionYear : Option ℕ
  results : List YearlyWithdrawal
deriving DecidableEq, Repr

/-- Initial state of the constant-dollar loop. -/
def cdInit (initialPortfolio initialWithdrawal : ℚ) : CDState :=
  { balance := initialPortfolio, withdrawal := initialWithdrawal
    totalWithdrawn := 0, minW := JsNum.posInf, maxW := 0, ranOut := false
    depletionYear := none, results := [] }

/-- The withdrawal actually taken this year: clamped to the balance when the
balance cannot cover the scheduled amount. -/
def cdWithdrawalOf (s : CDState) : ℚ :=
  if s.balance < s.withdrawal then s.balance else s.withdrawal

/-- The end-of-year balance: subtract the withdrawal, grow, clip at 0, round. -/
def cdEndBal (annualReturn : ℚ) (s : CDState) : ℚ :=
  jsRound (max 0 ((s.balance - cdWithdrawalOf s) * (1 + annualReturn)))

/-- The effective withdrawal rate recorded this year. -/
def cdRateOf (s : CDState) : ℚ :=
  if 0 < s.balance then cdWithdrawalOf s / s.balance else 0

/-- The yearly record pushed by the constant-dollar loop in the given year. -/
def cdRecOf (annualReturn : ℚ) (year : ℕ) (s : CDState) : YearlyWithdrawal :=
  { year := year, startingBalance := s.balance, withdrawal := cdWithdrawalOf s
    endingBalance := cdEndBal annualReturn s, withdrawalRate := cdRateOf s }

/-- One iteration of the constant-dollar loop (year is the 1-based loop
variable).  The depletion-year guard models the source truthiness test: the
year is at least 1, so the stored value is never falsy. -/
def cdStep (annualReturn inflationRate : ℚ) (year : ℕ) (s : CDState) : CDState :=
  let w := cdWithdrawalOf s
  let bal := cdEndBal annualReturn s
  { balance := bal
    withdrawal := if bal = 0 then 0 else jsRound (w * (1 + inflationRate))
    totalWithdrawn := s.totalWithdrawn + w
    minW := jsMin s.minW w
    maxW := max s.maxW w
    ranOut := s.ranOut || decide (s.balance < s.withdrawal)
    depletionYear :=
      if s.balance < s.withdrawal then
        (if s.depletionYear = none then some year else s.depletionYear)
      else s.depletionYear
    results := s.results ++ [cdRecOf annualReturn year s] }

/-- State after the first k iterations of the constant-dollar loop. -/
def cdStateAt (initialPortfolio initialWithdrawal annualReturn inflationRate : ℚ) :
    ℕ → CDState
  | 0 => cdInit initialPortfolio initialWithdrawal
  | k + 1 => cdStep annualReturn inflationRate (k + 1)
      (cdStateAt initialPortfolio initialWithdrawal annualReturn inflationRate k)

/-- simulateConstantDollar from src/lib/withdrawalStrategies.ts (the source
defaults inflationRate to 0.03; the parameter is explicit here). -/
def simulateConstantDollar (initialPortfolio initialWithdrawal : ℚ)
    (years : ℕ) (annualReturn inflationRate : ℚ) : StrategySimulationResult :=
  let final := cdStateAt initialPortfolio initialWithdrawal annualReturn
    inflationRate years
  { strategyType := "constant_dollar"
    initialPortfolio := initialPortfolio
    years := years
    annualReturn := annualReturn
    yearlyResults := final.results
    totalWithdrawn := final.totalWithdrawn
    finalBalance := final.balance
    averageWithdrawal := jsDivRound final.totalWithdrawn years
    minWithdrawal := final.minW
    maxWithdrawal := final.maxW
    ranOutOfMoney := final.ranOut
    depletionYear := final.depletionYear }

/-- Loop state of simulateGuardrails; currentWithdrawal is the base amount
carried into the coming year. -/
structure GRState where
  balance : ℚ
  currentWithdrawal : ℚ
  totalWithdrawn : ℚ
  minW : JsNum
  maxW : ℚ
  ranOut : Bool
  depletionYear : Option ℕ
  results : List YearlyWithdrawal
deriving DecidableEq, Repr

/-- Initial state of the guardrails loop: the first base withdrawal is the
rounded initial rate applied to the portfolio. -/
def grInit (initialPortfolio : ℚ) (cfg : GuardrailsConfig) : GRState :=
  { balance := initialPortfolio
    currentWithdrawal := jsRound (initialPortfolio * cfg.initialRate)
    totalWithdrawn := 0, minW := JsNum.posInf, maxW := 0, ranOut := false
    depletionYear := none, results := [] }

/-- One iteration of the guardrails loop, in source order: clamp the base
withdrawal to the balance, compute the realized rate, apply the guardrail
adjustment, take the (post-adjustment) withdrawal, grow the remainder. -/
def grStep (annualReturn : ℚ) (cfg : GuardrailsConfig) (year : ℕ)
    (s : GRState) : GRState :=
  let cw1 := if s.balance < s.currentWithdrawal then s.balance else s.currentWithdrawal
  let currentRate := if 0 < s.balance then cw1 / s.balance else 0
  let cw2 :=
    if cfg.floorGuardrail < currentRate then
      jsRound (cw1 * (1 - cfg.adjustmentPercent))
    else if currentRate < cfg.ceilingGuardrail then
      jsRound (cw1 * (1 + cfg.adjustmentPercent))
    else cw1
  let w := if 0 < s.balance then min cw2 s.balance else 0
  let bal := jsRound (max 0 ((s.balance - w) * (1 + annualReturn)))
  { balance := bal
    currentWithdrawal := if bal = 0 then 0 else cw2
    totalWithdrawn := s.totalWithdrawn + w
    minW := jsMin s.minW w
    maxW := max s.maxW w
    ranOut := s.ranOut || decide (s.balance < s.currentWithdrawal)
    depletionYear :=
      if s.balance < s.currentWithdrawal then
        (if s.depletionYear = none then some year else s.depletionYear)
      else s.depletionYear
    results := s.results ++
      [{ year := year, startingBalance := s.balance, withdrawal := w
         endingBalance := bal, withdrawalRate := currentRate }] }

/-- State after the first k iterations of the guardrails loop. -/
def grStateAt (initialPortfolio annualReturn : ℚ) (cfg : GuardrailsConfig) :
    ℕ → GRState
  | 0 => grInit initialPortfolio cfg
  | k + 1 => grStep annualReturn cfg (k + 1)
      (grStateAt initialPortfolio annualReturn cfg k)

/-- simulateGuardrails from src/lib/withdrawalStrategies.ts (the source
defaults the config to DEFAULT_GUARDRAILS_CONFIG; the parameter is explicit
here). -/
def simulateGuardrails (initialPortfolio : ℚ) (years : ℕ) (annualReturn : ℚ)
    (cfg : GuardrailsConfig) : StrategySimulationResult :=
  let final := grStateAt initialPortfolio annualReturn cfg years
  { strategyType := "guardrails"
    initialPortfolio := initialPortfolio
    years := years
    annualReturn := annualReturn
    yearlyResults := final.results
    totalWithdrawn := final.totalWithdrawn
    finalBalance := final.balance
    averageWithdrawal := jsDivRound final.totalWithdrawn years
    minWithdrawal := final.minW
    maxWithdrawal := final.maxW
    ranOutOfMoney := final.ranOut
    depletionYear := final.depletionYear }

/-- An all-cash allocation whose components sum to 99.995, inside the 0.01
validation tolerance. -/
def allCashNearAllocation : AssetAllocation :=
  { usStocks := 0, internationalStocks := 0, bonds := 0, cash := 99995/1000 }

/-- The moderate preset allocation from src/types/index.ts. -/
def presetModerateAllocation : AssetAllocation :=
  { usStocks := 40, internationalStocks := 20, bonds := 35, cash := 5 }

/-- A one-year inflation-adjusted flow with a fractional monthly amount. -/
def adjustedTenCentFlow : IncomeFlow :=
  { id := "flow-a", name := "tiny adjusted", flowType := IncomeFlowType.other
    monthlyAmount := 1/10, startAge := 65, endAge := some 66
    inflationAdjusted := true }

/-- A two-year non-inflation-adjusted flow paying one dollar a month. -/
def fixedDollarTwoYearFlow : IncomeFlow :=
  { id := "flow-b", name := "small pension", flowType := IncomeFlowType.pension
    monthlyAmount := 1, startAge := 65, endAge := some 67
    inflationAdjusted := false }

/-- A half-year non-inflation-adjusted flow (fractional effective span). -/
def fixedDollarHalfYearFlow : IncomeFlow :=
  { id := "flow-c", name := "half year", flowType := IncomeFlowType.other
    monthlyAmount := 100, startAge := 65, endAge := some (131/2)
    inflationAdjusted := false }

/-! ## Rounding lemmas -/

/-- Rounding is monotone. -/
theorem jsRound_mono {a b : ℚ} (h : a ≤ b) : jsRound a ≤ jsRound b := by
  unfold jsRound
  exact_mod_cast Int.floor_le_floor (by linarith)

/-- Rounding a sum differs from the sum of the roundings by at most one unit. -/
theorem jsRound_add_bound (a b : ℚ) :
    |jsRound (a + b) - (jsRound a + jsRound b)| ≤ 1 := by
  unfold jsRound
  have h1 : ⌊a + b + 1/2⌋ ≤ ⌊a + 1/2⌋ + ⌊b + 1/2⌋ + 1 := by
    have ha : a + 1/2 < ⌊a + 1/2⌋ + 1 := Int.lt_floor_add_one _
    have hb : b + 1/2 < ⌊b + 1/2⌋ + 1 := Int.lt_floor_add_one _
    have : a + b + 1/2 < ((⌊a + 1/2⌋ + ⌊b + 1/2⌋ + 2 : ℤ) : ℚ) := by
      push_cast
      linarith
    have := Int.floor_lt.mpr this
    omega
  have h2 : ⌊a + 1/2⌋ + ⌊b + 1/2⌋ - 1 ≤ ⌊a + b + 1/2⌋ := by
    apply Int.le_floor.mpr
    have ha : ((⌊a + 1/2⌋ : ℤ) : ℚ) ≤ a + 1/2 := Int.floor_le _
    have hb : ((⌊b + 1/2⌋ : ℤ) : ℚ) ≤ b + 1/2 := Int.floor_le _
    push_cast
    linarith
  rw [abs_le]
  constructor
  · push_cast
    have : ((⌊a + 1/2⌋ + ⌊b + 1/2⌋ - 1 : ℤ) : ℚ) ≤ ((⌊a + b + 1/2⌋ : ℤ) : ℚ) :=
      Int.cast_le.mpr h2
    push_cast at this
    linarith
  · have : ((⌊a + b + 1/2⌋ : ℤ) : ℚ) ≤ ((⌊a + 1/2⌋ + ⌊b + 1/2⌋ + 1 : ℤ) : ℚ) :=
      Int.cast_le.mpr h1
    push_cast at this
    linarith

/-- Splitting a value F as T + (F - T) before rounding moves the result by at
most one unit. -/
theorem jsRound_split_bound (F T : ℚ) :
    |jsRound F - (jsRound T + jsRound (F - T))| ≤ 1 := by
  have h := jsRound_add_bound T (F - T)
  rw [show T + (F - T) = F by ring] at h
  exact h

/-! ## C1: the post-rounding sum identity of calculateCompoundGrowth -/

/-- C1, counterexample: at principal 1/2, no contributions, annual rate 12,
one year, the three independently rounded fields give futureValue 2048 but
totalContributions + totalGrowth = 2049, so the claimed exact post-rounding
identity futureValue = totalContributions + totalGrowth fails. -/
theorem calculateCompoundGrowth_sum_identity_cex :
    (calculateCompoundGrowth (1/2) 0 12 1).futureValue = 2048 ∧
    (calculateCompoundGrowth (1/2) 0 12 1).totalContributions +
      (calculateCompoundGrowth (1/2) 0 12 1).totalGrowth = 2049 ∧
    (2048 : ℚ) ≠ 2049 := by
  refine ⟨?_, ?_, by norm_num⟩ <;>
    norm_num [calculateCompoundGrowth, jsRound]

/-- C1, amended: for every principal ≥ 0, monthlyContribution ≥ 0, any
annualRate and years ≥ 0, the three rounded fields of calculateCompoundGrowth
satisfy the sum identity up to one unit:
|futureValue - (totalContributions + totalGrowth)| ≤ 1 (the source rounds the
three values independently, with totalGrowth computed before rounding). -/
theorem calculateCompoundGrowth_sum_within_one
    (principal monthlyContribution annualRate : ℚ) (years : ℕ)
    (hp : 0 ≤ principal) (hc : 0 ≤ monthlyContribution) :
    |(calculateCompoundGrowth principal monthlyContribution annualRate years).futureValue -
      ((calculateCompoundGrowth principal monthlyContribution annualRate years).totalContributions +
       (calculateCompoundGrowth principal monthlyContribution annualRate years).totalGrowth)| ≤ 1 := by
  unfold calculateCompoundGrowth
  by_cases h : years = 0
  · rw [if_pos h]
    simp
  · rw [if_neg h]
    exact jsRound_split_bound _ _

/-- Witness for C1's amended theorem at the counterexample input, where the
discrepancy is exactly one unit. -/
theorem calculateCompoundGrowth_sum_within_one_witness :
    0 ≤ (1/2 : ℚ) ∧ 0 ≤ (0 : ℚ) ∧
    |(calculateCompoundGrowth (1/2) 0 12 1).futureValue -
      ((calculateCompoundGrowth (1/2) 0 12 1).totalContributions +
       (calculateCompoundGrowth (1/2) 0 12 1).totalGrowth)| ≤ 1 :=
  ⟨by norm_num, le_refl 0,
    calculateCompoundGrowth_sum_within_one (1/2) 0 12 1 (by norm_num) (le_refl 0)⟩

/-! ## C9: calculateRetirementTargetWithSWR validation and value -/

/-- C9: calculateRetirementTargetWithSWR fails with an invalid-argument error
exactly when withdrawalRate ≤ 0 or withdrawalRate > 1, and for every rate in
(0, 1] returns round(monthlyExpenses × 12 / withdrawalRate). -/
theorem calculateRetirementTargetWithSWR_spec (monthlyExpenses withdrawalRate : ℚ) :
    ((∃ e, calculateRetirementTargetWithSWR monthlyExpenses withdrawalRate =
        Except.error e) ↔ (withdrawalRate ≤ 0 ∨ 1 < withdrawalRate)) ∧
    (0 < withdrawalRate → withdrawalRate ≤ 1 →
      calculateRetirementTargetWithSWR monthlyExpenses withdrawalRate =
        Except.ok (jsRound (monthlyExpenses * 12 / withdrawalRate))) := by
  unfold calculateRetirementTargetWithSWR
  by_cases h : withdrawalRate ≤ 0 ∨ 1 < withdrawalRate
  · rw [if_pos h]
    refine ⟨⟨fun _ => h, fun _ => ⟨_, rfl⟩⟩, fun h1 h2 => ?_⟩
    rcases h with h | h <;> linarith
  · rw [if_neg h]
    refine ⟨⟨fun ⟨e, he⟩ => by simp at he, fun hw => absurd hw h⟩, fun _ _ => rfl⟩

/-- Witness for C9 at monthlyExpenses 4000 and withdrawalRate 0.04. -/
theorem calculateRetirementTargetWithSWR_spec_witness :
    (0 : ℚ) < 1/25 ∧ (1/25 : ℚ) ≤ 1 ∧
    calculateRetirementTargetWithSWR 4000 (1/25) = Except.ok 1200000 := by
  refine ⟨by norm_num, by norm_num, ?_⟩
  have h := (calculateRetirementTargetWithSWR_spec 4000 (1/25)).2
    (by norm_num) (by norm_num)
  rw [h]
  norm_num [jsRound]

/-! ## C3: constant percentage never runs out of money -/

/-- C3: for every nonnegative initialPortfolio, withdrawal rate in (0,1),
any year count and annual return ≥ -1, simulateConstantPercentage reports
ranOutOfMoney = false. -/
theorem simulateConstantPercentage_never_runs_out
    (initialPortfolio withdrawalRate : ℚ) (years : ℕ) (annualReturn : ℚ)
    (hp : 0 ≤ initialPortfolio) (hr1 : 0 < withdrawalRate)
    (hr2 : withdrawalRate < 1) (hret : -1 ≤ annualReturn) :
    (simulateConstantPercentage initialPortfolio withdrawalRate years
      annualReturn).ranOutOfMoney = false := rfl

/-- Witness for C3 at the parameters of the spec's long-horizon test. -/
theorem simulateConstantPercentage_never_runs_out_witness :
    (0 : ℚ) ≤ 1000000 ∧ (0 : ℚ) < 1/10 ∧ (1/10 : ℚ) < 1 ∧ (-1 : ℚ) ≤ 0 ∧
    (simulateConstantPercentage 1000000 (1/10) 50 0).ranOutOfMoney = false :=
  ⟨by norm_num, by norm_num, by norm_num, by norm_num,
    simulateConstantPercentage_never_runs_out 1000000 (1/10) 50 0
      (by norm_num) (by norm_num) (by norm_num) (by norm_num)⟩

/-! ## C10: zero-year simulations -/

/-- C10: with years = 0, each of the three simulators runs no iterations and
returns an empty yearlyResults list, totalWithdrawn 0, maxWithdrawal 0,
minWithdrawal Infinity, and an averageWithdrawal that is the NaN produced by
the unguarded division totalWithdrawn / years with divisor 0. -/
theorem simulations_zero_years_artifacts
    (p rate r w0 i : ℚ) (cfg : GuardrailsConfig) :
    ((simulateConstantPercentage p rate 0 r).yearlyResults = [] ∧
     (simulateConstantPercentage p rate 0 r).totalWithdrawn = 0 ∧
     (simulateConstantPercentage p rate 0 r).maxWithdrawal = 0 ∧
     (simulateConstantPercentage p rate 0 r).minWithdrawal = JsNum.posInf ∧
     (simulateConstantPercentage p rate 0 r).averageWithdrawal = JsNum.nan) ∧
    ((simulateConstantDollar p w0 0 r i).yearlyResults = [] ∧
     (simulateConstantDollar p w0 0 r i).totalWithdrawn = 0 ∧
     (simulateConstantDollar p w0 0 r i).maxWithdrawal = 0 ∧
     (simulateConstantDollar p w0 0 r i).minWithdrawal = JsNum.posInf ∧
     (simulateConstantDollar p w0 0 r i).averageWithdrawal = JsNum.nan) ∧
    ((simulateGuardrails p 0 r cfg).yearlyResults = [] ∧
     (simulateGuardrails p 0 r cfg).totalWithdrawn = 0 ∧
     (simulateGuardrails p 0 r cfg).maxWithdrawal = 0 ∧
     (simulateGuardrails p 0 r cfg).minWithdrawal = JsNum.posInf ∧
     (simulateGuardrails p 0 r cfg).averageWithdrawal = JsNum.nan) := by
  refine ⟨⟨rfl, rfl, rfl, rfl, ?_⟩, ⟨rfl, rfl, rfl, rfl, ?_⟩,
    ⟨rfl, rfl, rfl, rfl, ?_⟩⟩ <;>
    simp [simulateConstantPercentage, simulateConstantDollar, simulateGuardrails,
      cpStateAt, cdStateAt, grStateAt, cpInit, cdInit, grInit, jsDivRound]

/-! ## C2: guardrails adjustment timing -/

/-- C2: evaluating simulateGuardrails at initialPortfolio 1000000, 2 years,
annual return -1/2 and the default config shows the divergence from the
claimed (and source-commented) ordering: entering year 2 the carried base
withdrawal is 50000, the realized year-2 rate 50000/475000 exceeds the 0.06
floor guardrail, and the 10 percent cut decided from that rate is applied to
year 2 itself — the recorded year-2 withdrawal is the post-adjustment 45000,
not the pre-adjustment 50000 the claim requires. -/
theorem simulateGuardrails_same_year_adjustment :
    (grStateAt 1000000 (-(1/2)) DEFAULT_GUARDRAILS_CONFIG 1).currentWithdrawal
      = 50000 ∧
    ((simulateGuardrails 1000000 2 (-(1/2))
        DEFAULT_GUARDRAILS_CONFIG).yearlyResults[1]?).map
      YearlyWithdrawal.withdrawal = some 45000 ∧
    (45000 : ℚ) ≠ 50000 := by
  refine ⟨?_, ?_, by norm_num⟩ <;>
    norm_num [simulateGuardrails, grStateAt, grStep, grInit,
      DEFAULT_GUARDRAILS_CONFIG, jsRound, jsMin]

/-! ## C5: expected return of a validated allocation -/

/-- C5, counterexample: the all-cash allocation summing to 99.995 passes
validateAssetAllocation (the sum is within the 0.01 tolerance), yet its
expected return 0.019999 lies strictly below the claimed lower bound 0.02. -/
theorem calculateExpectedReturn_range_cex :
    validateAssetAllocation allCashNearAllocation = none ∧
    calculateExpectedReturn allCashNearAllocation = Except.ok (19999/1000000) ∧
    (19999/1000000 : ℚ) < 2/100 := by
  have hv : validateAssetAllocation allCashNearAllocation = none := by
    norm_num [validateAssetAllocation, allCashNearAllocation, abs]
  refine ⟨hv, ?_, by norm_num⟩
  unfold calculateExpectedReturn
  rw [hv]
  norm_num [allCashNearAllocation, ASSET_CLASS_RETURNS]

/-- C5, amended: for every allocation accepted by validateAssetAllocation,
calculateExpectedReturn succeeds with the percentage-weighted sum of the
fixed class returns (usStocks 0.10, internationalStocks 0.08, bonds 0.04,
cash 0.02), and because the accepted sum may differ from 100 by up to 0.01
the value lies in [0.019998, 0.100010] rather than [0.02, 0.10]. -/
theorem calculateExpectedReturn_range_amended (a : AssetAllocation)
    (h : validateAssetAllocation a = none) :
    calculateExpectedReturn a = Except.ok
      ((a.usStocks / 100) * ASSET_CLASS_RETURNS.usStocks +
       (a.internationalStocks / 100) * ASSET_CLASS_RETURNS.internationalStocks +
       (a.bonds / 100) * ASSET_CLASS_RETURNS.bonds +
       (a.cash / 100) * ASSET_CLASS_RETURNS.cash) ∧
    19998/1000000 ≤
      ((a.usStocks / 100) * ASSET_CLASS_RETURNS.usStocks +
       (a.internationalStocks / 100) * ASSET_CLASS_RETURNS.internationalStocks +
       (a.bonds / 100) * ASSET_CLASS_RETURNS.bonds +
       (a.cash / 100) * ASSET_CLASS_RETURNS.cash) ∧
    ((a.usStocks / 100) * ASSET_CLASS_RETURNS.usStocks +
       (a.internationalStocks / 100) * ASSET_CLASS_RETURNS.internationalStocks +
       (a.bonds / 100) * ASSET_CLASS_RETURNS.bonds +
       (a.cash / 100) * ASSET_CLASS_RETURNS.cash) ≤ 100010/1000000 := by
  have h' := h
  simp only [validateAssetAllocation] at h'
  split_ifs at h' with hsum hneg
  rw [not_lt] at hsum
  rw [abs_le] at hsum
  push_neg at hneg
  obtain ⟨hu, hi, hb, hc⟩ := hneg
  refine ⟨?_, ?_, ?_⟩
  · unfold calculateExpectedReturn
    rw [h]
  · norm_num [ASSET_CLASS_RETURNS] at hsum ⊢
    linarith
  · norm_num [ASSET_CLASS_RETURNS] at hsum ⊢
    linarith

/-- Witness for C5's amended theorem at the moderate preset allocation. -/
theorem calculateExpectedReturn_range_amended_witness :
    validateAssetAllocation presetModerateAllocation = none ∧
    calculateExpectedReturn presetModerateAllocation = Except.ok (71/1000) ∧
    19998/1000000 ≤ (71/1000 : ℚ) ∧ (71/1000 : ℚ) ≤ 100010/1000000 := by
  have hv : validateAssetAllocation presetModerateAllocation = none := by
    norm_num [validateAssetAllocation, presetModerateAllocation, abs]
  obtain ⟨he, hlo, hhi⟩ := calculateExpectedReturn_range_amended
    presetModerateAllocation hv
  norm_num [presetModerateAllocation, ASSET_CLASS_RETURNS] at he
  exact ⟨hv, he, by norm_num, by norm_num⟩

/-! ## C6: the SWR guidance ceiling lookup -/

/-- Sorting the already-ascending guidance table leaves it unchanged. -/
theorem swrSort_eval : List.insertionSort
    (fun a b : SWRGuidance => a.retirementYears ≤ b.retirementYears) SWR_GUIDANCE_TABLE
    = SWR_GUIDANCE_TABLE := by
  norm_num [SWR_GUIDANCE_TABLE, List.insertionSort, List.orderedInsert,
    swr20, swr25, swr30, swr35, swr40]

/-- Inputs at most 20 select the 20-year bracket. -/
theorem swrEval20 (r : ℚ) (h : r ≤ 20) : suggestWithdrawalRate r = swr20 := by
  simp only [suggestWithdrawalRate]
  rw [swrSort_eval, SWR_GUIDANCE_TABLE]
  rw [List.find?_cons_of_pos]
  simp only [decide_eq_true_eq, swr20]
  exact h

/-- Inputs in (20, 25] select the 25-year bracket. -/
theorem swrEval25 (r : ℚ) (h1 : 20 < r) (h2 : r ≤ 25) : suggestWithdrawalRate r = swr25 := by
  simp only [suggestWithdrawalRate]
  rw [swrSort_eval, SWR_GUIDANCE_TABLE]
  rw [List.find?_cons_of_neg, List.find?_cons_of_pos]
  · simp only [decide_eq_true_eq, swr25]
    exact h2
  · simp only [decide_eq_true_eq, swr20]
    intro hc
    exact absurd hc (by linarith)

/-- Inputs in (25, 30] select the 30-year bracket. -/
theorem swrEval30 (r : ℚ) (h1 : 25 < r) (h2 : r ≤ 30) : suggestWithdrawalRate r = swr30 := by
  simp only [suggestWithdrawalRate]
  rw [swrSort_eval, SWR_GUIDANCE_TABLE]
  rw [List.find?_cons_of_neg, List.find?_cons_of_neg, List.find?_cons_of_pos]
  · simp only [decide_eq_true_eq, swr30]
    exact h2
  all_goals simp only [decide_eq_true_eq, swr20, swr25]
  all_goals intro hc; exact absurd hc (by linarith)

/-- Inputs in (30, 35] select the 35-year bracket. -/
theorem swrEval35 (r : ℚ) (h1 : 30 < r) (h2 : r ≤ 35) : suggestWithdrawalRate r = swr35 := by
  simp only [suggestWithdrawalRate]
  rw [swrSort_eval, SWR_GUIDANCE_TABLE]
  rw [List.find?_cons_of_neg, List.find?_cons_of_neg, List.find?_cons_of_neg,
    List.find?_cons_of_pos]
  · simp only [decide_eq_true_eq, swr35]
    exact h2
  all_goals simp only [decide_eq_true_eq, swr20, swr25, swr30]
  all_goals intro hc; exact absurd hc (by linarith)

/-- Inputs in (35, 40] select the 40-year bracket. -/
theorem swrEval40 (r : ℚ) (h1 : 35 < r) (h2 : r ≤ 40) : suggestWithdrawalRate r = swr40 := by
  simp only [suggestWithdrawalRate]
  rw [swrSort_eval, SWR_GUIDANCE_TABLE]
  rw [List.find?_cons_of_neg, List.find?_cons_of_neg, List.find?_cons_of_neg,
    List.find?_cons_of_neg, List.find?_cons_of_pos]
  · simp only [decide_eq_true_eq, swr40]
    exact h2
  all_goals simp only [decide_eq_true_eq, swr20, swr25, swr30, swr35]
  all_goals intro hc; exact absurd hc (by linarith)

/-- Inputs above every threshold fall back to the last (40-year) bracket. -/
theorem swrEvalLast (r : ℚ) (h1 : 40 < r) : suggestWithdrawalRate r = swr40 := by
  simp only [suggestWithdrawalRate]
  rw [swrSort_eval, SWR_GUIDANCE_TABLE]
  rw [List.find?_cons_of_neg, List.find?_cons_of_neg, List.find?_cons_of_neg,
    List.find?_cons_of_neg, List.find?_cons_of_neg]
  · rfl
  all_goals simp only [decide_eq_true_eq, swr20, swr25, swr30, swr35, swr40]
  all_goals intro hc; exact absurd hc (by linarith)

/-- C6: for every retirementYears, suggestWithdrawalRate returns the table
entry with the smallest threshold at or above the input, falling back to the
last (most conservative) entry when the input exceeds every threshold; in
particular input 20 gives standardRate 0.05 and input 22 selects the 25-year
bracket, whose standardRate is 0.045. -/
theorem suggestWithdrawalRate_ceiling_lookup (r : ℚ) :
    suggestWithdrawalRate r ∈ SWR_GUIDANCE_TABLE ∧
    (∀ e ∈ SWR_GUIDANCE_TABLE, r ≤ e.retirementYears →
      r ≤ (suggestWithdrawalRate r).retirementYears ∧
      (suggestWithdrawalRate r).retirementYears ≤ e.retirementYears) ∧
    ((∀ e ∈ SWR_GUIDANCE_TABLE, e.retirementYears < r) →
      suggestWithdrawalRate r = swr40) ∧
    (suggestWithdrawalRate 20).standardRate = 0.05 ∧
    suggestWithdrawalRate 22 = swr25 ∧
    swr25.standardRate = 0.045 := by
  have h20e : (suggestWithdrawalRate 20).standardRate = 0.05 := by
    rw [swrEval20 20 le_rfl]
    norm_num [swr20]
  have h22e : suggestWithdrawalRate 22 = swr25 :=
    swrEval25 22 (by norm_num) (by norm_num)
  have hstep : ∀ g : SWRGuidance, suggestWithdrawalRate r = g →
      g ∈ SWR_GUIDANCE_TABLE →
      (∀ e ∈ SWR_GUIDANCE_TABLE, r ≤ e.retirementYears →
        r ≤ g.retirementYears ∧ g.retirementYears ≤ e.retirementYears) →
      ((∀ e ∈ SWR_GUIDANCE_TABLE, e.retirementYears < r) → g = swr40) →
      suggestWithdrawalRate r ∈ SWR_GUIDANCE_TABLE ∧
      (∀ e ∈ SWR_GUIDANCE_TABLE, r ≤ e.retirementYears →
        r ≤ (suggestWithdrawalRate r).retirementYears ∧
        (suggestWithdrawalRate r).retirementYears ≤ e.retirementYears) ∧
      ((∀ e ∈ SWR_GUIDANCE_TABLE, e.retirementYears < r) →
        suggestWithdrawalRate r = swr40) ∧
      (suggestWithdrawalRate 20).standardRate = 0.05 ∧
      suggestWithdrawalRate 22 = swr25 ∧
      swr25.standardRate = 0.045 := by
    intro g heq hmem hmin hlast
    rw [heq]
    exact ⟨hmem, hmin, hlast, h20e, h22e, rfl⟩
  rcases le_or_lt r 20 with h1 | h1
  · refine hstep swr20 (swrEval20 r h1) (by simp [SWR_GUIDANCE_TABLE]) ?_ ?_
    · intro e he hre
      simp only [SWR_GUIDANCE_TABLE, List.mem_cons, List.not_mem_nil, or_false] at he
      rcases he with rfl | rfl | rfl | rfl | rfl <;>
        simp only [swr20, swr25, swr30, swr35, swr40] at hre ⊢ <;>
        exact ⟨by linarith, by linarith⟩
    · intro hall
      exfalso
      have h0 := hall swr40 (by simp [SWR_GUIDANCE_TABLE])
      simp only [swr40] at h0
      linarith
  · rcases le_or_lt r 25 with h2 | h2
    · refine hstep swr25 (swrEval25 r h1 h2) (by simp [SWR_GUIDANCE_TABLE]) ?_ ?_
      · intro e he hre
        simp only [SWR_GUIDANCE_TABLE, List.mem_cons, List.not_mem_nil, or_false] at he
        rcases he with rfl | rfl | rfl | rfl | rfl <;>
          simp only [swr20, swr25, swr30, swr35, swr40] at hre ⊢ <;>
          exact ⟨by linarith, by linarith⟩
      · intro hall
        exfalso
        have h0 := hall swr40 (by simp [SWR_GUIDANCE_TABLE])
        simp only [swr40] at h0
        linarith
    · rcases le_or_lt r 30 with h3 | h3
      · refine hstep swr30 (swrEval30 r h2 h3) (by simp [SWR_GUIDANCE_TABLE]) ?_ ?_
        · intro e he hre
          simp only [SWR_GUIDANCE_TABLE, List.mem_cons, List.not_mem_nil, or_false] at he
          rcases he with rfl | rfl | rfl | rfl | rfl <;>
            simp only [swr20, swr25, swr30, swr35, swr40] at hre ⊢ <;>
            exact ⟨by linarith, by linarith⟩
        · intro hall
          exfalso
          have h0 := hall swr40 (by simp [SWR_GUIDANCE_TABLE])
          simp only [swr40] at h0
          linarith
      · rcases le_or_lt r 35 with h4 | h4
        · refine hstep swr35 (swrEval35 r h3 h4) (by simp [SWR_GUIDANCE_TABLE]) ?_ ?_
          · intro e he hre
            simp only [SWR_GUIDANCE_TABLE, List.mem_cons, List.not_mem_nil, or_false] at he
            rcases he with rfl | rfl | rfl | rfl | rfl <;>
              simp only [swr20, swr25, swr30, swr35, swr40] at hre ⊢ <;>
              exact ⟨by linarith, by linarith⟩
          · intro hall
            exfalso
            have h0 := hall swr40 (by simp [SWR_GUIDANCE_TABLE])
            simp only [swr40] at h0
            linarith
        · rcases le_or_lt r 40 with h5 | h5
          · refine hstep swr40 (swrEval40 r h4 h5) (by simp [SWR_GUIDANCE_TABLE]) ?_ ?_
            · intro e he hre
              simp only [SWR_GUIDANCE_TABLE, List.mem_cons, List.not_mem_nil, or_false] at he
              rcases he with rfl | rfl | rfl | rfl | rfl <;>
                simp only [swr20, swr25, swr30, swr35, swr40] at hre ⊢ <;>
                exact ⟨by linarith, by linarith⟩
            · intro hall
              rfl
          · refine hstep swr40 (swrEvalLast r h5) (by simp [SWR_GUIDANCE_TABLE]) ?_ ?_
            · intro e he hre
              simp only [SWR_GUIDANCE_TABLE, List.mem_cons, List.not_mem_nil, or_false] at he
              rcases he with rfl | rfl | rfl | rfl | rfl <;>
                simp only [swr20, swr25, swr30, swr35, swr40] at hre ⊢ <;>
                exact ⟨by linarith, by linarith⟩
            · intro hall
              rfl

/-- Witness for C6 at retirementYears 22: the 25-year bracket is the least
bracket at or above the input. -/
theorem suggestWithdrawalRate_ceiling_lookup_witness :
    swr25 ∈ SWR_GUIDANCE_TABLE ∧ (22 : ℚ) ≤ swr25.retirementYears ∧
    (22 : ℚ) ≤ (suggestWithdrawalRate 22).retirementYears ∧
    (suggestWithdrawalRate 22).retirementYears ≤ swr25.retirementYears := by
  have h := (suggestWithdrawalRate_ceiling_lookup 22).2.1 swr25
    (by simp [SWR_GUIDANCE_TABLE]) (by norm_num [swr25])
  exact ⟨by simp [SWR_GUIDANCE_TABLE], by norm_num [swr25], h.1, h.2⟩

/-! ## C7: projectRetirementAge outcomes -/

/-- C7, counterexample: two inputs with currentSavings ≥ targetAmount on
which projectRetirementAge does not return currentAge: with currentAge 81
above maxAge 80 the scan never runs, and with savings 10.4 against target
10.2 the year-0 projection rounds down to 10 below the target, so both calls
return none. -/
theorem projectRetirementAge_immediate_cex :
    (50 : ℚ) ≤ 100 ∧ projectRetirementAge 81 100 0 50 (1/20) 80 = none ∧
    (51/5 : ℚ) ≤ 52/5 ∧ projectRetirementAge 30 (52/5) 0 (51/5) 0 30 = none := by
  refine ⟨by norm_num, ?_, by norm_num, ?_⟩
  · norm_num [projectRetirementAge]
  · norm_num [projectRetirementAge, calculateCompoundGrowth, jsRound,
      List.range_succ, List.find?]

/-- C7, amended: projectRetirementAge returns currentAge whenever
currentAge ≤ maxAge and the rounded year-0 projection round(currentSavings)
already reaches targetAmount, and returns none — a normal outcome, not an
error — whenever every scanned year offset k (the integer offsets with
currentAge + k ≤ maxAge) has projected futureValue below targetAmount. -/
theorem projectRetirementAge_amended
    (currentAge currentSavings monthlyContribution targetAmount annualRate maxAge : ℚ) :
    (currentAge ≤ maxAge → targetAmount ≤ jsRound currentSavings →
      projectRetirementAge currentAge currentSavings monthlyContribution
        targetAmount annualRate maxAge = some currentAge) ∧
    ((∀ k : ℕ, (k : ℚ) ≤ maxAge - currentAge →
        (calculateCompoundGrowth currentSavings monthlyContribution annualRate
          k).futureValue < targetAmount) →
      projectRetirementAge currentAge currentSavings monthlyContribution
        targetAmount annualRate maxAge = none) := by
  constructor
  · intro hle htgt
    unfold projectRetirementAge
    rw [if_pos hle, List.range_succ_eq_map, List.find?_cons_of_pos]
    · simp
    · simp only [calculateCompoundGrowth, if_pos rfl, decide_eq_true_eq]
      exact htgt
  · intro hall
    unfold projectRetirementAge
    split_ifs with hle
    · have hfloor : (0 : ℤ) ≤ ⌊maxAge - currentAge⌋ := by
        apply Int.le_floor.mpr
        push_cast
        linarith
      have hnone : (List.range (Int.toNat ⌊maxAge - currentAge⌋ + 1)).find?
          (fun k => decide (targetAmount ≤
            (calculateCompoundGrowth currentSavings monthlyContribution annualRate
              k).futureValue)) = none := by
        rw [List.find?_eq_none]
        intro k hk
        simp only [List.mem_range] at hk
        simp only [decide_eq_true_eq, not_le]
        apply hall
        have hk' : (k : ℤ) ≤ ⌊maxAge - currentAge⌋ := by omega
        exact_mod_cast Int.le_floor.mp hk'
      rw [hnone]
      rfl
    · rfl

/-- Witness for C7's amended theorem: an already-at-target scenario returns
the current age, and an unreachable-target scenario returns none. -/
theorem projectRetirementAge_amended_witness :
    (50 : ℚ) ≤ 80 ∧ (1000000 : ℚ) ≤ jsRound 1500000 ∧
    projectRetirementAge 50 1500000 1000 1000000 (7/100) 80 = some 50 :=
  ⟨by norm_num, by norm_num [jsRound],
    (projectRetirementAge_amended 50 1500000 1000 1000000 (7/100) 80).1
      (by norm_num) (by norm_num [jsRound])⟩

/-! ## C8: lifetime value of an income flow -/

/-- C8, counterexample: three concrete flows refute the claim as stated.
A one-year inflation-adjusted flow of 0.1/month returns the rounded value 1,
not the exact nominal 1.2; a two-year non-adjusted one-dollar flow at 3
percent inflation returns 24, not strictly less than the nominal 24; and a
half-year non-adjusted flow returns 1200, which exceeds its nominal 600
because the source loop runs ceil(years) times. -/
theorem incomeFlowLifetimeValue_cex :
    calculateIncomeFlowLifetimeValue adjustedTenCentFlow 65 95 (3/100) = 1 ∧
    adjustedTenCentFlow.monthlyAmount * 12 *
      (effectiveEndAge adjustedTenCentFlow 95 -
       effectiveStartAge adjustedTenCentFlow 65) = 6/5 ∧
    (1 : ℚ) ≠ 6/5 ∧
    calculateIncomeFlowLifetimeValue fixedDollarTwoYearFlow 65 95 (3/100) = 24 ∧
    fixedDollarTwoYearFlow.monthlyAmount * 12 *
      (effectiveEndAge fixedDollarTwoYearFlow 95 -
       effectiveStartAge fixedDollarTwoYearFlow 65) = 24 ∧
    ¬((24 : ℚ) < 24) ∧
    calculateIncomeFlowLifetimeValue fixedDollarHalfYearFlow 65 95 (3/100) = 1200 ∧
    fixedDollarHalfYearFlow.monthlyAmount * 12 *
      (effectiveEndAge fixedDollarHalfYearFlow 95 -
       effectiveStartAge fixedDollarHalfYearFlow 65) = 600 ∧
    ¬((1200 : ℚ) < 600) := by
  refine ⟨?_, by norm_num [adjustedTenCentFlow, effectiveEndAge, effectiveStartAge],
    by norm_num, ?_,
    by norm_num [fixedDollarTwoYearFlow, effectiveEndAge, effectiveStartAge],
    by norm_num, ?_,
    by norm_num [fixedDollarHalfYearFlow, effectiveEndAge, effectiveStartAge],
    by norm_num⟩
  · norm_num [calculateIncomeFlowLifetimeValue, adjustedTenCentFlow,
      effectiveStartAge, effectiveEndAge, jsRound]
  · norm_num [calculateIncomeFlowLifetimeValue, fixedDollarTwoYearFlow,
      effectiveStartAge, effectiveEndAge, nonAdjustedTotalValue, jsRound,
      show Int.toNat 2 = 2 from rfl, Finset.sum_range_succ, Finset.sum_range_zero]
  · norm_num [calculateIncomeFlowLifetimeValue, fixedDollarHalfYearFlow,
      effectiveStartAge, effectiveEndAge, nonAdjustedTotalValue, jsRound,
      show ⌈(1/2 : ℚ)⌉ = 1 from by rw [Int.ceil_eq_iff] <;> norm_num,
      show Int.toNat 1 = 1 from rfl,
      Finset.sum_range_succ, Finset.sum_range_zero]

/-- C8, amended: for a flow whose effective span is a whole positive number
of years n and whose monthlyAmount is nonnegative, the inflation-adjusted
value is the rounded nominal round(monthlyAmount × 12 × n); a non-adjusted
flow with the same parameters and positive inflation returns at most that
rounded nominal, and its pre-rounding discounted total is strictly below the
nominal sum once n ≥ 2 and the amount is positive (for n = 1 the two agree,
and for fractional spans the non-adjusted loop runs ceil(years) times and
can exceed the nominal). -/
theorem incomeFlowLifetimeValue_amended (flow : IncomeFlow)
    (retirementAge lifeExpectancy inflationRate : ℚ) (n : ℕ)
    (hn : effectiveEndAge flow lifeExpectancy - effectiveStartAge flow retirementAge = (n : ℚ))
    (hpos : 0 < n) (hm : 0 ≤ flow.monthlyAmount) :
    (flow.inflationAdjusted = true →
      calculateIncomeFlowLifetimeValue flow retirementAge lifeExpectancy inflationRate
        = jsRound (flow.monthlyAmount * 12 * (n : ℚ))) ∧
    (flow.inflationAdjusted = false → 0 < inflationRate →
      calculateIncomeFlowLifetimeValue flow retirementAge lifeExpectancy inflationRate
        ≤ jsRound (flow.monthlyAmount * 12 * (n : ℚ)) ∧
      (2 ≤ n → 0 < flow.monthlyAmount →
        nonAdjustedTotalValue (flow.monthlyAmount * 12) inflationRate n <
          flow.monthlyAmount * 12 * (n : ℚ))) := by
  have hn0 : (0 : ℚ) < (n : ℚ) := by exact_mod_cast hpos
  have hnotle : ¬(effectiveEndAge flow lifeExpectancy ≤
      effectiveStartAge flow retirementAge) := by
    intro hcont
    have : effectiveEndAge flow lifeExpectancy -
        effectiveStartAge flow retirementAge ≤ 0 := by linarith
    rw [hn] at this
    linarith
  have hceil : Int.toNat ⌈effectiveEndAge flow lifeExpectancy -
      effectiveStartAge flow retirementAge⌉ = n := by
    rw [hn]
    rw [Int.ceil_natCast]
    exact Int.toNat_natCast n
  constructor
  · intro hadj
    simp only [calculateIncomeFlowLifetimeValue, hadj, if_true, if_neg hnotle, hn]
  · intro hadj hinfl
    have hval : calculateIncomeFlowLifetimeValue flow retirementAge lifeExpectancy
        inflationRate = jsRound (nonAdjustedTotalValue (flow.monthlyAmount * 12)
          inflationRate n) := by
      simp only [calculateIncomeFlowLifetimeValue, hadj, if_neg hnotle,
        Bool.false_eq_true, if_false, hceil]
    have hannual : (0 : ℚ) ≤ flow.monthlyAmount * 12 := by
      nlinarith
    have hbase : (1 : ℚ) ≤ 1 + inflationRate := by linarith
    have hterm : ∀ y ∈ Finset.range n,
        flow.monthlyAmount * 12 / (1 + inflationRate) ^ y ≤ flow.monthlyAmount * 12 := by
      intro y _
      exact div_le_self hannual (one_le_pow₀ hbase)
    have hsum : nonAdjustedTotalValue (flow.monthlyAmount * 12) inflationRate n ≤
        flow.monthlyAmount * 12 * (n : ℚ) := by
      unfold nonAdjustedTotalValue
      calc ∑ y ∈ Finset.range n, flow.monthlyAmount * 12 / (1 + inflationRate) ^ y
          ≤ ∑ _y ∈ Finset.range n, flow.monthlyAmount * 12 := Finset.sum_le_sum hterm
        _ = flow.monthlyAmount * 12 * (n : ℚ) := by
            rw [Finset.sum_const, Finset.card_range, nsmul_eq_mul]
            ring
    refine ⟨?_, ?_⟩
    · rw [hval]
      exact jsRound_mono hsum
    · intro hn2 hmpos
      have hannual' : (0 : ℚ) < flow.monthlyAmount * 12 := by nlinarith
      have hlt : ∃ y ∈ Finset.range n,
          flow.monthlyAmount * 12 / (1 + inflationRate) ^ y < flow.monthlyAmount * 12 := by
        refine ⟨1, Finset.mem_range.mpr (by omega), ?_⟩
        rw [pow_one]
        exact div_lt_self hannual' (by linarith)
      have hstrict := Finset.sum_lt_sum hterm hlt
      unfold nonAdjustedTotalValue
      calc ∑ y ∈ Finset.range n, flow.monthlyAmount * 12 / (1 + inflationRate) ^ y
          < ∑ _y ∈ Finset.range n, flow.monthlyAmount * 12 := hstrict
        _ = flow.monthlyAmount * 12 * (n : ℚ) := by
            rw [Finset.sum_const, Finset.card_range, nsmul_eq_mul]
            ring

/-- Witness for C8's amended theorem at the two-year one-dollar flow. -/
theorem incomeFlowLifetimeValue_amended_witness :
    effectiveEndAge fixedDollarTwoYearFlow 95 -
      effectiveStartAge fixedDollarTwoYearFlow 65 = ((2 : ℕ) : ℚ) ∧
    (0 : ℕ) < 2 ∧ (0 : ℚ) ≤ fixedDollarTwoYearFlow.monthlyAmount ∧
    calculateIncomeFlowLifetimeValue fixedDollarTwoYearFlow 65 95 (3/100) ≤
      jsRound (fixedDollarTwoYearFlow.monthlyAmount * 12 * ((2 : ℕ) : ℚ)) ∧
    nonAdjustedTotalValue (fixedDollarTwoYearFlow.monthlyAmount * 12) (3/100) 2 <
      fixedDollarTwoYearFlow.monthlyAmount * 12 * ((2 : ℕ) : ℚ) := by
  have hn : effectiveEndAge fixedDollarTwoYearFlow 95 -
      effectiveStartAge fixedDollarTwoYearFlow 65 = ((2 : ℕ) : ℚ) := by
    norm_num [effectiveEndAge, effectiveStartAge, fixedDollarTwoYearFlow]
  have h := (incomeFlowLifetimeValue_amended fixedDollarTwoYearFlow 65 95 (3/100) 2
    hn (by norm_num) (by norm_num [fixedDollarTwoYearFlow])).2 rfl (by norm_num)
  exact ⟨hn, by norm_num, by norm_num [fixedDollarTwoYearFlow], h.1,
    h.2 (by norm_num) (by norm_num [fixedDollarTwoYearFlow])⟩

/-! ## C4: constant-dollar depletion behaviour -/

/-- The constant-dollar loop emits one record per iteration. -/
theorem cdResults_length (p w0 r i : ℚ) :
    ∀ n, (cdStateAt p w0 r i n).results.length = n := by
  intro n
  induction n with
  | zero => rfl
  | succ m ih =>
    simp only [cdStateAt, cdStep, List.length_append, List.length_cons,
      List.length_nil, ih]

/-- The record at index k of the trace is the one emitted in year k+1 from
the state entering that year. -/
theorem cdResults_lookup (p w0 r i : ℚ) :
    ∀ n k, k < n → (cdStateAt p w0 r i n).results[k]? =
      some (cdRecOf r (k + 1) (cdStateAt p w0 r i k)) := by
  intro n
  induction n with
  | zero => intro k hk; omega
  | succ m ih =>
    intro k hk
    show (cdStep r i (m + 1) (cdStateAt p w0 r i m)).results[k]? = _
    simp only [cdStep]
    rcases Nat.lt_or_ge k m with hkm | hkm
    · rw [List.getElem?_append_left]
      · exact ih k hkm
      · rw [cdResults_length]
        exact hkm
    · have hk' : k = m := by omega
      subst hk'
      have hlen : (cdStateAt p w0 r i k).results.length = k := cdResults_length p w0 r i k
      have hcat := List.getElem?_concat_length (cdStateAt p w0 r i k).results
        (cdRecOf r (k + 1) (cdStateAt p w0 r i k))
      rw [hlen] at hcat
      exact hcat

/-- One-step unfolding of the ranOutOfMoney accumulator. -/
theorem cdRanOut_step (p w0 r i : ℚ) (n : ℕ) :
    (cdStateAt p w0 r i (n + 1)).ranOut =
      ((cdStateAt p w0 r i n).ranOut ||
        decide ((cdStateAt p w0 r i n).balance < (cdStateAt p w0 r i n).withdrawal)) := rfl

/-- Once set, the ranOutOfMoney flag stays set. -/
theorem cdRanOut_mono (p w0 r i : ℚ) :
    ∀ n m, n ≤ m → (cdStateAt p w0 r i n).ranOut = true →
      (cdStateAt p w0 r i m).ranOut = true := by
  intro n m
  induction m with
  | zero =>
    intro h hn
    have hz : n = 0 := by omega
    subst hz
    exact hn
  | succ m' ih =>
    intro h hn
    rcases Nat.lt_or_ge n (m' + 1) with hlt | hge
    · have := ih (by omega) hn
      rw [cdRanOut_step, this, Bool.true_or]
    · have : n = m' + 1 := by omega
      rw [← this]
      exact hn

/-- The depletionYear field after n iterations is one plus the first loop
index at which the starting balance could not cover the scheduled
withdrawal, and none when no such clamp happened. -/
theorem cdDepletion_spec (p w0 r i : ℚ) :
    ∀ n, (cdStateAt p w0 r i n).depletionYear =
      ((List.range n).find? (fun k =>
        decide ((cdStateAt p w0 r i k).balance < (cdStateAt p w0 r i k).withdrawal))).map
        (fun k => k + 1) := by
  intro n
  induction n with
  | zero => rfl
  | succ m ih =>
    have hstep : (cdStateAt p w0 r i (m + 1)).depletionYear =
        (if (cdStateAt p w0 r i m).balance < (cdStateAt p w0 r i m).withdrawal then
          (if (cdStateAt p w0 r i m).depletionYear = none then some (m + 1)
           else (cdStateAt p w0 r i m).depletionYear)
         else (cdStateAt p w0 r i m).depletionYear) := rfl
    rw [hstep, List.range_succ, List.find?_append]
    cases hfind : (List.range m).find? (fun k =>
        decide ((cdStateAt p w0 r i k).balance < (cdStateAt p w0 r i k).withdrawal)) with
    | none =>
      rw [hfind] at ih
      simp only [Option.map_none'] at ih
      rw [ih]
      simp only [Option.none_or]
      by_cases hc : (cdStateAt p w0 r i m).balance < (cdStateAt p w0 r i m).withdrawal
      · rw [if_pos hc]
        simp [List.find?, hc]
      · rw [if_neg hc]
        simp [List.find?, hc]
    | some j =>
      rw [hfind] at ih
      simp only [Option.map_some'] at ih
      simp only [Option.or_some]
      rw [ih]
      by_cases hc : (cdStateAt p w0 r i m).balance < (cdStateAt p w0 r i m).withdrawal
      · rw [if_pos hc, if_neg (by simp [ih])]
        simp
      · rw [if_neg hc]
        simp

/-- When a year ends with balance exactly 0, the next scheduled withdrawal is
forced to 0. -/
theorem cdDead_withdrawal (p w0 r i : ℚ) (n : ℕ)
    (h : (cdStateAt p w0 r i (n + 1)).balance = 0) :
    (cdStateAt p w0 r i (n + 1)).withdrawal = 0 := by
  have hb : (cdStateAt p w0 r i (n + 1)).balance =
      cdEndBal r (cdStateAt p w0 r i n) := rfl
  have hw : (cdStateAt p w0 r i (n + 1)).withdrawal =
      (if cdEndBal r (cdStateAt p w0 r i n) = 0 then 0
       else jsRound (cdWithdrawalOf (cdStateAt p w0 r i n) * (1 + i))) := rfl
  rw [hw, if_pos (hb ▸ h)]

/-- A dead state (zero balance, zero scheduled withdrawal) persists and emits
zero-withdrawal records. -/
theorem cdDead_step (p w0 r i : ℚ) (n : ℕ)
    (hb : (cdStateAt p w0 r i n).balance = 0)
    (hw : (cdStateAt p w0 r i n).withdrawal = 0) :
    (cdStateAt p w0 r i (n + 1)).balance = 0 ∧
    (cdStateAt p w0 r i (n + 1)).withdrawal = 0 ∧
    (cdRecOf r (n + 1) (cdStateAt p w0 r i n)).withdrawal = 0 := by
  have hwof : cdWithdrawalOf (cdStateAt p w0 r i n) = 0 := by
    unfold cdWithdrawalOf
    rw [hb, hw]
    norm_num
  have hend : cdEndBal r (cdStateAt p w0 r i n) = 0 := by
    unfold cdEndBal
    rw [hb, hwof]
    norm_num [jsRound]
  refine ⟨hend, ?_, ?_⟩
  · exact cdDead_withdrawal p w0 r i n hend
  · unfold cdRecOf
    exact hwof

/-- A dead state propagates to every later year. -/
theorem cdDead_propagate (p w0 r i : ℚ) :
    ∀ m k, m ≤ k → (cdStateAt p w0 r i m).balance = 0 →
      (cdStateAt p w0 r i m).withdrawal = 0 →
      (cdStateAt p w0 r i k).balance = 0 ∧
      (cdStateAt p w0 r i k).withdrawal = 0 ∧
      (cdRecOf r (k + 1) (cdStateAt p w0 r i k)).withdrawal = 0 := by
  intro m k
  induction k with
  | zero =>
    intro h hb hw
    have hz : m = 0 := by omega
    subst hz
    exact ⟨hb, hw, (cdDead_step p w0 r i 0 hb hw).2.2⟩
  | succ k' ih =>
    intro h hb hw
    rcases Nat.lt_or_ge m (k' + 1) with hlt | hge
    · obtain ⟨hb', hw', _⟩ := ih (by omega) hb hw
      obtain ⟨hb2, hw2, _⟩ := cdDead_step p w0 r i k' hb' hw'
      exact ⟨hb2, hw2, (cdDead_step p w0 r i (k' + 1) hb2 hw2).2.2⟩
    · have : m = k' + 1 := by omega
      subst this
      exact ⟨hb, hw, (cdDead_step p w0 r i _ hb hw).2.2⟩

/-- C4: in simulateConstantDollar, whenever the balance entering a year is
below the scheduled withdrawal, that year records the clamped withdrawal
equal to the remaining balance and the final ranOutOfMoney flag is true;
depletionYear equals one plus the first loop index at which such a clamp
occurs (never overwritten later, and none when no clamp ever occurs); and
once the balance reaches exactly 0 at the end of some year, every later year
records a withdrawal of 0. -/
theorem simulateConstantDollar_depletion_behavior (p w0 r i : ℚ) (years : ℕ) :
    (∀ k, k < years →
      (cdStateAt p w0 r i k).balance < (cdStateAt p w0 r i k).withdrawal →
      ((simulateConstantDollar p w0 years r i).yearlyResults[k]?).map
          YearlyWithdrawal.withdrawal = some ((cdStateAt p w0 r i k).balance) ∧
      (simulateConstantDollar p w0 years r i).ranOutOfMoney = true) ∧
    (simulateConstantDollar p w0 years r i).depletionYear =
      ((List.range years).find? (fun k =>
        decide ((cdStateAt p w0 r i k).balance < (cdStateAt p w0 r i k).withdrawal))).map
        (fun k => k + 1) ∧
    (∀ m k, 1 ≤ m → m ≤ k → k < years → (cdStateAt p w0 r i m).balance = 0 →
      ((simulateConstantDollar p w0 years r i).yearlyResults[k]?).map
        YearlyWithdrawal.withdrawal = some 0) := by
  have hres : (simulateConstantDollar p w0 years r i).yearlyResults =
      (cdStateAt p w0 r i years).results := rfl
  have hran : (simulateConstantDollar p w0 years r i).ranOutOfMoney =
      (cdStateAt p w0 r i years).ranOut := rfl
  have hdep : (simulateConstantDollar p w0 years r i).depletionYear =
      (cdStateAt p w0 r i years).depletionYear := rfl
  refine ⟨?_, ?_, ?_⟩
  · intro k hk hclamp
    constructor
    · rw [hres, cdResults_lookup p w0 r i years k hk]
      have : (cdRecOf r (k + 1) (cdStateAt p w0 r i k)).withdrawal =
          (cdStateAt p w0 r i k).balance := by
        unfold cdRecOf cdWithdrawalOf
        rw [if_pos hclamp]
      simp [this]
    · rw [hran]
      apply cdRanOut_mono p w0 r i (k + 1) years hk
      rw [cdRanOut_step]
      simp [hclamp]
  · rw [hdep]
    exact cdDepletion_spec p w0 r i years
  · intro m k hm hmk hk hb
    obtain ⟨m', rfl⟩ : ∃ m', m = m' + 1 := ⟨m - 1, by omega⟩
    have hw := cdDead_withdrawal p w0 r i m' hb
    obtain ⟨_, _, hrec⟩ := cdDead_propagate p w0 r i (m' + 1) k hmk hb hw
    rw [hres, cdResults_lookup p w0 r i years k hk]
    simp [hrec]

/-- Witness for C4 at portfolio 100, initial withdrawal 60, three years,
zero growth and inflation: year 2 clamps to the remaining 40, depletion is
recorded, and year 3 withdraws 0 from the emptied portfolio. -/
theorem simulateConstantDollar_depletion_behavior_witness :
    (1 < 3) ∧
    ((cdStateAt 100 60 0 0 1).balance < (cdStateAt 100 60 0 0 1).withdrawal) ∧
    ((simulateConstantDollar 100 60 3 0 0).yearlyResults[1]?).map
      YearlyWithdrawal.withdrawal = some ((cdStateAt 100 60 0 0 1).balance) ∧
    (simulateConstantDollar 100 60 3 0 0).ranOutOfMoney = true ∧
    (1 ≤ 2 ∧ 2 ≤ 2 ∧ 2 < 3) ∧ (cdStateAt 100 60 0 0 2).balance = 0 ∧
    ((simulateConstantDollar 100 60 3 0 0).yearlyResults[2]?).map
      YearlyWithdrawal.withdrawal = some 0 := by
  have h := simulateConstantDollar_depletion_behavior 100 60 0 0 3
  have hclamp : (cdStateAt 100 60 0 0 1).balance < (cdStateAt 100 60 0 0 1).withdrawal := by
    norm_num [cdStateAt, cdStep, cdInit, cdWithdrawalOf, cdEndBal, cdRateOf,
      cdRecOf, jsRound, jsMin]
  have hzero : (cdStateAt 100 60 0 0 2).balance = 0 := by
    norm_num [cdStateAt, cdStep, cdInit, cdWithdrawalOf, cdEndBal, cdRateOf,
      cdRecOf, jsRound, jsMin]
  have ha := h.1 1 (by norm_num) hclamp
  have hc := h.2.2 2 2 (by norm_num) (by norm_num) (by norm_num) hzero
  exact ⟨by norm_num, hclamp, ha.1, ha.2, ⟨by norm_num, by norm_num, by norm_num⟩,
    hzero, hc⟩
